import Mathlib

/-!
# Plant-disease client: session gate, detection pipeline, risk thresholds

A shallow embedding of the handlers of `App.jsx`, `DiseaseDetector.jsx` and
`RiskCalculator.jsx`.

* A JavaScript string is the list of its UTF-16 code units (`JSString`); the
  elements that `split('')`, `reverse()` and `trim()` work on are code units.
* React state is an explicit record; a handler is a function from the state
  before to the state after, together with the requests it dispatches.
* `localStorage` is reduced to the one key the program uses, `userId`.
-/

namespace AgriClient

/-! ## JavaScript strings -/

/-- A JavaScript string: its sequence of UTF-16 code units. -/
abbrev JSString := List Nat

/-- UTF-16 encoding of one Unicode scalar value. -/
def utf16 (c : Char) : List Nat :=
  if c.toNat < 65536 then [c.toNat]
  else [55296 + (c.toNat - 65536) / 1024, 56320 + (c.toNat - 65536) % 1024]

/-- The JavaScript string denoted by a source literal. -/
def lit (s : String) : JSString :=
  (s.toList.map utf16).flatten

/-- Code units that `String.prototype.trim` strips: ECMAScript WhiteSpace and
LineTerminator. -/
def isWhiteSpace (c : Nat) : Bool :=
  c = 9 || c = 10 || c = 11 || c = 12 || c = 13 || c = 32 || c = 160 ||
  c = 5760 || (8192 ≤ c && c ≤ 8202) || c = 8232 || c = 8233 || c = 8239 ||
  c = 8287 || c = 12288 || c = 65279

/-- `String.prototype.trimStart`. -/
def trimStart (s : JSString) : JSString :=
  s.dropWhile isWhiteSpace

/-- `String.prototype.trimEnd`. -/
def trimEnd (s : JSString) : JSString :=
  (s.reverse.dropWhile isWhiteSpace).reverse

/-- `String.prototype.trim`. -/
def trim (s : JSString) : JSString :=
  trimEnd (trimStart s)

/-- `s.split('')`: the array of the one-code-unit strings of `s`. -/
def split (s : JSString) : List JSString :=
  s.map fun c => [c]

/-- `a.join('')`: concatenation of an array of strings. -/
def join (a : List JSString) : JSString :=
  a.flatten

/-- Truthiness of a string: every string but the empty one. -/
def truthy (s : JSString) : Bool :=
  !s.isEmpty

/-- First code unit of a surrogate pair. -/
def isHighSurrogate (c : Nat) : Bool :=
  55296 ≤ c && c ≤ 56319

/-- Second code unit of a surrogate pair. -/
def isLowSurrogate (c : Nat) : Bool :=
  56320 ≤ c && c ≤ 57343

/-- The characters of a string, as its iterator yields them: a surrogate pair
is one character of two code units, every other code unit is a character. -/
def characters : JSString → List JSString
  | [] => []
  | [c] => [[c]]
  | c :: d :: r =>
    if isHighSurrogate c && isLowSurrogate d then [c, d] :: characters r
    else [c] :: characters (d :: r)

/-- The character-reversal of the specification, section 4.1: the characters
of the string in reverse order. This follows the words of the specification;
the program computes `join (split s).reverse`. -/
def characterReversal (s : JSString) : JSString :=
  join (characters s).reverse

/-! ## Session gate (`App.jsx`) -/

/-- The `userId` entry of `localStorage`: `none` when the key is absent. -/
abbrev Storage := Option JSString

/-- `localStorage.getItem('userId') || dflt`. -/
def getItemOr (st : Storage) (dflt : JSString) : JSString :=
  match st with
  | some v => if truthy v then v else dflt
  | none => dflt

/-- React state of `App`. -/
structure AppState where
  activeTab : JSString
  userId : JSString
  password : JSString
  authError : JSString
  showUserSetup : Bool
  deriving DecidableEq, Repr

/-- State of `App` on first render, `App.jsx` lines 9-13. -/
def AppState.init (st : Storage) : AppState :=
  let userId := getItemOr st (lit "")
  { activeTab := lit "detector"
    userId := userId
    password := lit ""
    authError := lit ""
    showUserSetup := !truthy userId }

/-- The message of `App.jsx` line 26. -/
def invalidPasswordMsg : JSString :=
  lit "Invalid password. Use your username reversed (example: ramu -> umar)."

/-- The test of `handleSetUserId`, `App.jsx` lines 17-21, on the contents of
the two fields:
`trimmedUserId && trimmedPassword && trimmedPassword === expectedPassword`. -/
def credentialAccepted (userId password : JSString) : Bool :=
  let trimmedUserId := trim userId
  let trimmedPassword := trim password
  let expectedPassword := join (split trimmedUserId).reverse
  truthy trimmedUserId && truthy trimmedPassword
    && (trimmedPassword == expectedPassword)

/-- Submit handler of the credential form, `App.jsx` lines 15-28. -/
def handleSetUserId (st : Storage) (s : AppState) : Storage × AppState :=
  if credentialAccepted s.userId s.password then
    (some s.userId, { s with authError := lit "", showUserSetup := false })
  else
    (st, { s with authError := invalidPasswordMsg })

/-- The `onChange` handler of the name field, `App.jsx` lines 42-45. -/
def onChangeUserId (v : JSString) (s : AppState) : AppState :=
  let s1 := { s with userId := v }
  if truthy s.authError then { s1 with authError := lit "" } else s1

/-- The `onChange` handler of the password field, `App.jsx` lines 54-57. -/
def onChangePassword (v : JSString) (s : AppState) : AppState :=
  let s1 := { s with password := v }
  if truthy s.authError then { s1 with authError := lit "" } else s1

/-- The Logout button's `onClick`, `App.jsx` lines 83-86. -/
def logout (_st : Storage) (s : AppState) : Storage × AppState :=
  (none, { s with showUserSetup := true })

/-! ## JavaScript numbers and values -/

/-- A JavaScript number, by its exact value: `NaN`, a finite value, or an
infinity. Comparison of numbers is exact, so the order on finite values is the
order of the rationals; rounding of a decimal text to binary64 is not part of
the model, and the literals `0.7` and `0.4` stand for `7/10` and `4/10`. -/
inductive JSNum where
  | nan
  | num (q : ℚ)
  | inf (negative : Bool)
  deriving DecidableEq

/-- The comparison `x > c` against a finite literal `c`; false on `NaN`. -/
def JSNum.gt (x : JSNum) (c : ℚ) : Bool :=
  match x with
  | .nan => false
  | .num q => decide (c < q)
  | .inf negative => !negative

/-- The comparison `x <= c` against a finite literal `c`; false on `NaN`. -/
def JSNum.le (x : JSNum) (c : ℚ) : Bool :=
  match x with
  | .nan => false
  | .num q => decide (q ≤ c)
  | .inf negative => negative

/-- A value read from an object: `undefined`, a string, or one of the members
every object inherits from `Object.prototype` (a function or object, named by
its key). -/
inductive JSVal where
  | undefined
  | str (s : JSString)
  | inherited (key : JSString)
  deriving DecidableEq

/-- Truthiness of a value: `undefined` and the empty string are falsy. -/
def JSVal.truthy : JSVal → Bool
  | .undefined => false
  | .str s => AgriClient.truthy s
  | .inherited _ => true

/-- Keys that a plain object literal inherits from `Object.prototype`. -/
def objectPrototypeKeys : List JSString :=
  [lit "constructor", lit "hasOwnProperty", lit "isPrototypeOf",
   lit "propertyIsEnumerable", lit "toLocaleString", lit "toString",
   lit "valueOf", lit "__proto__", lit "__defineGetter__",
   lit "__defineSetter__", lit "__lookupGetter__", lit "__lookupSetter__"]

/-- Property read `obj[key]` on an object literal with string-valued own
properties: own properties first, then the prototype chain. -/
def getProp (own : List (JSString × JSString)) (key : JSString) : JSVal :=
  match own.lookup key with
  | some v => .str v
  | none => if key ∈ objectPrototypeKeys then .inherited key else .undefined

/-- The property key a value is converted to: a missing value (`undefined`)
reads the key `"undefined"`. -/
def toPropertyKey (v : Option JSString) : JSString :=
  match v with
  | some s => s
  | none => lit "undefined"

/-! ## Result interpretation (`DiseaseDetector.jsx`, `RiskCalculator.jsx`) -/

/-- The `colors` table of `getSeverityColor`, `DiseaseDetector.jsx` lines 59-63. -/
def severityColors : List (JSString × JSString) :=
  [(lit "Severe", lit "bg-red-100 text-red-800"),
   (lit "Moderate", lit "bg-yellow-100 text-yellow-800"),
   (lit "Mild", lit "bg-green-100 text-green-800")]

/-- `getSeverityColor`, `DiseaseDetector.jsx` lines 58-65:
`colors[severity] || 'bg-gray-100 text-gray-800'`. -/
def getSeverityColor (severity : Option JSString) : JSVal :=
  let v := getProp severityColors (toPropertyKey severity)
  if v.truthy then v else .str (lit "bg-gray-100 text-gray-800")

/-- The inline severity of the Disease Risk badge, `DiseaseDetector.jsx` line 154. -/
def diseaseRiskSeverity (risk_level : JSNum) : JSString :=
  if risk_level.gt (7/10) then lit "Severe"
  else if risk_level.gt (4/10) then lit "Moderate"
  else lit "Mild"

/-- Class of the Disease Risk badge, `DiseaseDetector.jsx` line 154. -/
def diseaseRiskBadge (risk_level : JSNum) : JSVal :=
  getSeverityColor (some (diseaseRiskSeverity risk_level))

/-- `getRiskColor`, `RiskCalculator.jsx` lines 59-63. -/
def getRiskColor (level : JSNum) : JSString :=
  if level.gt (7/10) then lit "text-red-600 bg-red-100"
  else if level.gt (4/10) then lit "text-yellow-600 bg-yellow-100"
  else lit "text-green-600 bg-green-100"

/-- `getRiskCategory`, `RiskCalculator.jsx` lines 65-69. -/
def getRiskCategory (level : JSNum) : JSString :=
  if level.gt (7/10) then lit "High Risk"
  else if level.gt (4/10) then lit "Medium Risk"
  else lit "Low Risk"

/-- Items rendered when `risk_level > 0.7`, `RiskCalculator.jsx` lines 199-201. -/
def highRiskBundle : List JSString :=
  [lit "Consider preventive spraying immediately",
   lit "Monitor plants closely for early symptoms",
   lit "Implement strict plant hygiene measures"]

/-- Items rendered when `0.4 < risk_level <= 0.7`, `RiskCalculator.jsx` lines 206-208. -/
def mediumRiskBundle : List JSString :=
  [lit "Maintain good air circulation",
   lit "Monitor weather conditions closely",
   lit "Apply preventive treatments when needed"]

/-- Items rendered when `risk_level <= 0.4`, `RiskCalculator.jsx` lines 213-215. -/
def lowRiskBundle : List JSString :=
  [lit "Maintain normal care practices",
   lit "Continue regular monitoring",
   lit "Update conditions if weather changes"]

/-- The list items of the Recommendations block, `RiskCalculator.jsx` lines
196-218: three independent conditional fragments, in document order. -/
def recommendations (risk_level : JSNum) : List JSString :=
  (if risk_level.gt (7/10) then highRiskBundle else []) ++
  (if risk_level.gt (4/10) && risk_level.le (7/10) then mediumRiskBundle else []) ++
  (if risk_level.le (4/10) then lowRiskBundle else [])

/-- The three tiers of the specification. -/
inductive Tier where
  | low
  | medium
  | high
  deriving DecidableEq, Repr

/-- Tier named by a severity label. -/
def severityTier (s : JSString) : Option Tier :=
  if s = lit "Severe" then some .high
  else if s = lit "Moderate" then some .medium
  else if s = lit "Mild" then some .low
  else none

/-- Tier named by a risk category label. -/
def categoryTier (s : JSString) : Option Tier :=
  if s = lit "High Risk" then some .high
  else if s = lit "Medium Risk" then some .medium
  else if s = lit "Low Risk" then some .low
  else none

/-- Tier named by a risk colour class: red, yellow, green. -/
def colorTier (s : JSString) : Option Tier :=
  if s = lit "text-red-600 bg-red-100" then some .high
  else if s = lit "text-yellow-600 bg-yellow-100" then some .medium
  else if s = lit "text-green-600 bg-green-100" then some .low
  else none

/-- Tier named by a severity badge class: red, yellow, green. -/
def badgeTier (v : JSVal) : Option Tier :=
  if v = .str (lit "bg-red-100 text-red-800") then some .high
  else if v = .str (lit "bg-yellow-100 text-yellow-800") then some .medium
  else if v = .str (lit "bg-green-100 text-green-800") then some .low
  else none

/-- The recommendation bundle of a tier. -/
def bundleOf : Tier → List JSString
  | .high => highRiskBundle
  | .medium => mediumRiskBundle
  | .low => lowRiskBundle

/-! ## Detection pipeline (`DiseaseDetector.jsx`) -/

/-- An image file handed over by the dropzone. -/
structure File where
  name : JSString
  type : JSString
  bytes : List Nat
  deriving DecidableEq

/-- What `readAsDataURL` yields for a file: its media type and its content
(the content is kept decoded; base64 is an injective encoding of it). -/
structure DataURL where
  mime : JSString
  payload : List Nat
  deriving DecidableEq

/-- `FileReader.readAsDataURL`, the value later passed to `reader.onload`. A
file whose type is empty is written as `application/octet-stream`. -/
def readAsDataURL (file : File) : DataURL :=
  { mime := if file.type = [] then lit "application/octet-stream" else file.type
    payload := file.bytes }

/-- One entry of `top_3_predictions`. -/
structure Prediction where
  disease : JSString
  confidence : JSNum
  deriving DecidableEq

/-- The `disease_info` object of a detection response. -/
structure DiseaseInfo where
  name : JSString
  description : JSString
  causes : List JSString
  prevention : List JSString
  deriving DecidableEq

/-- One entry of `treatments`. -/
structure Treatment where
  name : JSString
  dosage : JSString
  frequency : JSString
  cost : JSString
  effectiveness : JSString
  deriving DecidableEq

/-- Body of a successful detection response, `response.data`. -/
structure DetectionResult where
  detected_disease : JSString
  confidence : JSNum
  severity : Option JSString
  risk_level : JSNum
  disease_info : DiseaseInfo
  treatments : List Treatment
  top_3_predictions : List Prediction
  deriving DecidableEq

/-- The multipart form posted to `/api/detect`, `DiseaseDetector.jsx` lines 41-44. -/
structure DetectRequest where
  image : File
  location : JSString
  user_id : JSString
  deriving DecidableEq

/-- React state of `DiseaseDetector`, lines 6-11. -/
structure DetectorState where
  image : Option File
  preview : Option DataURL
  result : Option DetectionResult
  loading : Bool
  error : Option JSString
  location : JSString
  deriving DecidableEq

/-- State of `DiseaseDetector` on mount. -/
def DetectorState.init : DetectorState :=
  { image := none, preview := none, result := none, loading := false,
    error := none, location := lit "" }

/-- `onDrop`, `DiseaseDetector.jsx` lines 13-22: the state after the call and
the file whose read was started, if any. The preview is set later, by
`readerOnload`. -/
def onDrop (acceptedFiles : List File) (s : DetectorState) :
    DetectorState × Option File :=
  match acceptedFiles.head? with
  | some file => ({ s with image := some file, error := none }, some file)
  | none => (s, none)

/-- The `reader.onload` callback of line 18, for the file read. -/
def readerOnload (file : File) (s : DetectorState) : DetectorState :=
  { s with preview := some (readAsDataURL file) }

/-- The `onChange` handler of the location field, line 103. -/
def onChangeLocation (v : JSString) (s : DetectorState) : DetectorState :=
  { s with location := v }

/-- The sentinel of `DiseaseDetector.jsx` line 44. -/
def anonymous : JSString :=
  lit "anonymous"

/-- `handleDetect` up to its `await`, `DiseaseDetector.jsx` lines 31-48: the
state after the synchronous part and the request posted, if any. -/
def handleDetect (st : Storage) (s : DetectorState) :
    DetectorState × Option DetectRequest :=
  match s.image with
  | none => ({ s with error := some (lit "Please select an image") }, none)
  | some image =>
    ({ s with loading := true, error := none },
     some { image := image, location := s.location,
            user_id := getItemOr st anonymous })

/-- Continuation of `handleDetect` when the request succeeds, lines 50 and 54. -/
def handleDetectFulfilled (data : DetectionResult) (s : DetectorState) :
    DetectorState :=
  { s with result := some data, loading := false }

/-- Continuation of `handleDetect` when the request fails, lines 52 and 54:
`msg` is `err.response?.data?.error`. -/
def handleDetectRejected (msg : Option JSString) (s : DetectorState) :
    DetectorState :=
  let shown :=
    match msg with
    | some m => if truthy m then m else lit "Error detecting disease"
    | none => lit "Error detecting disease"
  { s with error := some shown, loading := false }

/-- The `disabled` attribute of the Detect button, line 119. -/
def detectDisabled (s : DetectorState) : Bool :=
  s.image.isNone || s.loading

/-- What can happen to one mounted `DiseaseDetector`. -/
inductive DetEvent where
  | drop (acceptedFiles : List File)
  | readerLoad (i : Nat)
  | changeLocation (v : JSString)
  | detect
  | fulfil (i : Nat) (data : DetectionResult)
  | reject (i : Nat) (msg : Option JSString)

/-- One mounted `DiseaseDetector` with its asynchronous work: the file reads
started and not yet finished, the requests posted and not yet answered, and the
log of every request posted. -/
structure Pipeline where
  ui : DetectorState
  readers : List File
  inFlight : List DetectRequest
  sent : List DetectRequest

/-- A freshly mounted detector. -/
def Pipeline.init : Pipeline :=
  { ui := DetectorState.init, readers := [], inFlight := [], sent := [] }

/-- One event on the detector. With `viaButton`, `detect` is a click on the
Detect button, which does nothing while the button is disabled; without it,
`detect` is a call of `handleDetect` itself. -/
def Pipeline.step (viaButton : Bool) (st : Storage) (p : Pipeline) :
    DetEvent → Pipeline
  | .drop acceptedFiles =>
    let r := onDrop acceptedFiles p.ui
    { p with ui := r.1, readers := p.readers ++ r.2.toList }
  | .readerLoad i =>
    match p.readers[i]? with
    | some file => { p with ui := readerOnload file p.ui, readers := p.readers.eraseIdx i }
    | none => p
  | .changeLocation v => { p with ui := onChangeLocation v p.ui }
  | .detect =>
    if viaButton && detectDisabled p.ui then p
    else
      let r := handleDetect st p.ui
      { p with ui := r.1, inFlight := p.inFlight ++ r.2.toList,
               sent := p.sent ++ r.2.toList }
  | .fulfil i data =>
    if i < p.inFlight.length then
      { p with ui := handleDetectFulfilled data p.ui, inFlight := p.inFlight.eraseIdx i }
    else p
  | .reject i msg =>
    if i < p.inFlight.length then
      { p with ui := handleDetectRejected msg p.ui, inFlight := p.inFlight.eraseIdx i }
    else p

/-- A sequence of events on the detector, with the stored identifier fixed. -/
def Pipeline.run (viaButton : Bool) (st : Storage) (p : Pipeline) :
    List DetEvent → Pipeline
  | [] => p
  | e :: es => Pipeline.run viaButton st (p.step viaButton st e) es

/-- The number of outstanding requests of a detector driven through its button
is 1 while `loading` is set and 0 otherwise. -/
def ButtonInv (p : Pipeline) : Prop :=
  p.inFlight.length = if p.ui.loading then 1 else 0

/-! ## The application as a whole -/

/-- Storage, the state of `App`, and the detector. -/
structure World where
  storage : Storage
  app : AppState
  pipe : Pipeline

/-- What can happen to the application. -/
inductive Event where
  | changeUserId (v : JSString)
  | changePassword (v : JSString)
  | submit
  | logout
  | selectTab (tab : JSString)
  | det (e : DetEvent)

/-- One event on the application; detector events are calls of its handlers. -/
def World.step (w : World) : Event → World
  | .changeUserId v => { w with app := onChangeUserId v w.app }
  | .changePassword v => { w with app := onChangePassword v w.app }
  | .submit =>
    let r := handleSetUserId w.storage w.app
    { w with storage := r.1, app := r.2 }
  | .logout =>
    let r := AgriClient.logout w.storage w.app
    { w with storage := r.1, app := r.2 }
  | .selectTab tab => { w with app := { w.app with activeTab := tab } }
  | .det e => { w with pipe := w.pipe.step false w.storage e }

/-- A sequence of events on the application. -/
def World.run (w : World) : List Event → World
  | [] => w
  | e :: es => World.run (w.step e) es

/-- No `submit` of the sequence is accepted by the gate. -/
def noAcceptedSubmit (w : World) : List Event → Bool
  | [] => true
  | e :: es =>
    (match e with
     | .submit => !credentialAccepted w.app.userId w.app.password
     | _ => true) && noAcceptedSubmit (w.step e) es

/-! ## Weather risk pipeline (`RiskCalculator.jsx`) -/

/-- Decimal digit code units. -/
def isDigit (c : Nat) : Bool :=
  48 ≤ c && c ≤ 57

/-- Value of a run of decimal digits. -/
def digitsValue (ds : List Nat) : Nat :=
  ds.foldl (fun acc d => 10 * acc + (d - 48)) 0

/-- An optional sign: whether it is `-`, and the rest of the text. -/
def takeSign (t : JSString) : Bool × JSString :=
  match t with
  | 45 :: r => (true, r)
  | 43 :: r => (false, r)
  | _ => (false, t)

/-- The exponent part `e`/`E`, optional sign, digits at the start of `t`, or 0
when there is none. -/
def exponentPart (t : JSString) : Int :=
  match t with
  | c :: r =>
    if c = 101 || c = 69 then
      let sr := takeSign r
      let ds := sr.2.takeWhile isDigit
      if ds.isEmpty then 0
      else if sr.1 then -(digitsValue ds : Int) else (digitsValue ds : Int)
    else 0
  | [] => 0

/-- The global `parseFloat`: leading white space is skipped, the longest prefix
that is a decimal literal is read, and `NaN` is returned when there is none.
The value is the exact decimal value: rounding to binary64, and with it
overflow to `Infinity` and underflow to 0, is not modelled. -/
def parseFloat (s : JSString) : JSNum :=
  let st := takeSign (trimStart s)
  let t := st.2
  if t.take 8 = lit "Infinity" then .inf st.1
  else
    let intDigits := t.takeWhile isDigit
    let t2 := t.dropWhile isDigit
    let fracDigits :=
      match t2 with
      | 46 :: r => r.takeWhile isDigit
      | _ => []
    let t3 :=
      match t2 with
      | 46 :: r => r.dropWhile isDigit
      | _ => t2
    if intDigits.isEmpty && fracDigits.isEmpty then .nan
    else
      let mantissa : ℚ := (digitsValue (intDigits ++ fracDigits) : ℚ) / 10 ^ fracDigits.length
      let v : ℚ := mantissa * 10 ^ exponentPart t3
      .num (if st.1 then -v else v)

/-- The `formData` state of `RiskCalculator`, lines 5-11. -/
structure FormData where
  disease_name : JSString
  temperature : JSString
  humidity : JSString
  rainfall : JSString
  location : JSString
  deriving DecidableEq

/-- Body of a successful weather-risk response. -/
structure RiskResult where
  disease : JSString
  risk_level : JSNum
  deriving DecidableEq

/-- React state of `RiskCalculator`, lines 5-14. -/
structure RiskState where
  formData : FormData
  result : Option RiskResult
  loading : Bool
  error : Option JSString
  deriving DecidableEq

/-- State of `RiskCalculator` on mount. -/
def RiskState.init : RiskState :=
  { formData := { disease_name := lit "", temperature := lit "", humidity := lit "",
                  rainfall := lit "", location := lit "" }
    result := none, loading := false, error := none }

/-- The `weather_data` object of the request, lines 43-48. -/
structure WeatherData where
  temperature : JSNum
  humidity : JSNum
  rainfall : JSNum
  location : JSString
  deriving DecidableEq

/-- The body posted to `/api/weather-risk`, lines 41-49. -/
structure WeatherRequest where
  disease_name : JSString
  weather_data : WeatherData
  deriving DecidableEq

/-- `handleChange`, lines 27-33, for the five named controls of the form. -/
def handleChange (name value : JSString) (s : RiskState) : RiskState :=
  if name = lit "disease_name" then { s with formData := { s.formData with disease_name := value } }
  else if name = lit "temperature" then { s with formData := { s.formData with temperature := value } }
  else if name = lit "humidity" then { s with formData := { s.formData with humidity := value } }
  else if name = lit "rainfall" then { s with formData := { s.formData with rainfall := value } }
  else if name = lit "location" then { s with formData := { s.formData with location := value } }
  else s

/-- `handleCalculate` up to its `await`, `RiskCalculator.jsx` lines 35-49: the
state after the synchronous part and the requests posted. -/
def handleCalculate (s : RiskState) : RiskState × List WeatherRequest :=
  ({ s with loading := true, error := none },
   [{ disease_name := s.formData.disease_name
      weather_data :=
        { temperature := parseFloat s.formData.temperature
          humidity := parseFloat s.formData.humidity
          rainfall := parseFloat s.formData.rainfall
          location := s.formData.location } }])

/-- Continuation of `handleCalculate` when the request succeeds, lines 51 and 55. -/
def handleCalculateFulfilled (data : RiskResult) (s : RiskState) : RiskState :=
  { s with result := some data, loading := false }

/-- Continuation of `handleCalculate` when the request fails, lines 53 and 55. -/
def handleCalculateRejected (msg : Option JSString) (s : RiskState) : RiskState :=
  let shown :=
    match msg with
    | some m => if truthy m then m else lit "Error calculating risk"
    | none => lit "Error calculating risk"
  { s with error := some shown, loading := false }

/-! ## Alternative predictions (`DiseaseDetector.jsx`) -/

/-- The product `x * c` of a number with a finite literal `c`, by exact value. -/
def JSNum.mul (x : JSNum) (c : ℚ) : JSNum :=
  match x with
  | .nan => .nan
  | .num q => .num (q * c)
  | .inf negative => if c = 0 then .nan else .inf (if 0 < c then negative else !negative)

/-- The comparison `a >= b` of two numbers; false when either is `NaN`. -/
def JSNum.ge (a b : JSNum) : Bool :=
  match a, b with
  | .nan, _ => false
  | _, .nan => false
  | .num x, .num y => decide (y ≤ x)
  | .inf negative, .num _ => !negative
  | .num _, .inf negative => negative
  | .inf na, .inf nb => !na || nb

/-- One row of the Alternative Predictions list, `DiseaseDetector.jsx` lines
217-226: the rank `idx + 1`, the disease, the number that sets the bar width
and the number handed to `toFixed(1)`. The decimal text `toFixed` prints is not
part of the model. -/
structure PredictionRow where
  rank : Nat
  disease : JSString
  barWidth : JSNum
  percent : JSNum
  deriving DecidableEq

/-- The rows of the Alternative Predictions list, lines 216-227:
`result.top_3_predictions.map((pred, idx) => ...)`. -/
def alternativePredictions (result : DetectionResult) : List PredictionRow :=
  result.top_3_predictions.mapIdx fun idx pred =>
    { rank := idx + 1
      disease := pred.disease
      barWidth := pred.confidence.mul 100
      percent := pred.confidence.mul 100 }

/-! ## Sample data -/

/-- A small image file. -/
def sampleLeaf : File :=
  { name := lit "leaf.png", type := lit "image/png", bytes := [137, 80, 78, 71] }

/-- A detector with `sampleLeaf` staged, nothing in flight. -/
def stagedDetector : DetectorState :=
  { DetectorState.init with image := some sampleLeaf }

/-- A detector with `sampleLeaf` staged and a request outstanding. -/
def busyDetector : DetectorState :=
  { DetectorState.init with image := some sampleLeaf, loading := true }

/-- A weather form whose temperature is not a number. -/
def badTemperatureForm : RiskState :=
  { RiskState.init with
    formData := { disease_name := lit "Tomato_Early_blight", temperature := lit "abc",
                  humidity := lit "80", rainfall := lit "0", location := lit "" } }

/-- A gated-in application for the user `ramu`. -/
def ramuWorld : World :=
  { storage := some (lit "ramu")
    app := AppState.init (some (lit "ramu"))
    pipe := Pipeline.init }

/-- A second image file, different from `sampleLeaf`. -/
def otherLeaf : File :=
  { name := lit "other.jpg", type := lit "image/jpeg", bytes := [255, 216, 255] }

/-- The credential form filled in with padded, matching fields. -/
def paddedForm : AppState :=
  { AppState.init none with userId := lit " ramu ", password := lit " umar " }

/-- The credential form filled in with a credential that does not match. -/
def wrongForm : AppState :=
  { AppState.init none with userId := lit "ramu", password := lit "ramu" }

/-- A detection response with three predictions in descending confidence. -/
def sampleResult : DetectionResult :=
  { detected_disease := lit "Tomato_Early_blight"
    confidence := .num (9/10)
    severity := some (lit "Moderate")
    risk_level := .num (1/2)
    disease_info := { name := lit "Early blight", description := lit "", causes := [],
                      prevention := [] }
    treatments := []
    top_3_predictions :=
      [{ disease := lit "Tomato_Early_blight", confidence := .num (9/10) },
       { disease := lit "Tomato_Late_blight", confidence := .num (1/20) },
       { disease := lit "Tomato_Leaf_Mold", confidence := .num (1/50) }] }

/-- The credential form after a rejected attempt, corrected to matching fields. -/
def retryForm : AppState :=
  { AppState.init none with
    userId := lit "ramu", password := lit "umar", authError := invalidPasswordMsg }

/-- An identifier with a character outside the Basic Multilingual Plane:
the letter a followed by U+1F600. -/
def astralName : JSString :=
  [97, 55357, 56832]

/-- The identifier `astralName` with its two characters in reverse order. -/
def astralNameReversed : JSString :=
  [55357, 56832, 97]

/-! ## Auxiliary facts -/

theorem join_reverse_split (s : JSString) : join (split s).reverse = s.reverse := by
  induction s with
  | nil => rfl
  | cons c r ih =>
    simp only [split, join, List.map_cons, List.reverse_cons, List.flatten_append,
      List.flatten_cons, List.flatten_nil, List.append_nil] at ih ⊢
    rw [ih]

theorem truthy_iff (s : JSString) : truthy s = true ↔ s ≠ [] := by
  cases s <;> simp [truthy]

theorem credentialAccepted_iff (u p : JSString) :
    credentialAccepted u p = true ↔
      trim u ≠ [] ∧ trim p ≠ [] ∧ trim p = (trim u).reverse := by
  simp only [credentialAccepted, join_reverse_split, Bool.and_eq_true, truthy_iff,
    beq_iff_eq, and_assoc]

theorem invalidPasswordMsg_ne_empty : invalidPasswordMsg ≠ lit "" := by decide

/-! ## Session gate -/

/-- The submit handler takes its accepting branch (identifier stored, error
cleared, gate opened) exactly when both trimmed fields are non-empty and the
trimmed credential is the reversal of the code units of the trimmed identifier,
and its rejecting branch (storage untouched, the fixed error message set)
exactly otherwise. The four sample inputs behave as listed. -/
theorem handleSetUserId_accepts_iff_reversal (st : Storage) (s : AppState) :
    (handleSetUserId st s
        = (some s.userId, { s with authError := lit "", showUserSetup := false })
      ↔ (trim s.userId ≠ [] ∧ trim s.password ≠ [] ∧
          trim s.password = (trim s.userId).reverse)) ∧
    (handleSetUserId st s = (st, { s with authError := invalidPasswordMsg })
      ↔ ¬ (trim s.userId ≠ [] ∧ trim s.password ≠ [] ∧
          trim s.password = (trim s.userId).reverse)) ∧
    handleSetUserId st { s with userId := lit "ramu", password := lit "umar" }
      = (some (lit "ramu"),
         { s with userId := lit "ramu", password := lit "umar",
                  authError := lit "", showUserSetup := false }) ∧
    handleSetUserId st { s with userId := lit "ramu", password := lit "ramu" }
      = (st, { s with userId := lit "ramu", password := lit "ramu",
                      authError := invalidPasswordMsg }) ∧
    handleSetUserId st { s with userId := lit "", password := lit "" }
      = (st, { s with userId := lit "", password := lit "",
                      authError := invalidPasswordMsg }) ∧
    handleSetUserId st { s with userId := lit " ramu ", password := lit " umar " }
      = (some (lit " ramu "),
         { s with userId := lit " ramu ", password := lit " umar ",
                  authError := lit "", showUserSetup := false }) := by
  refine ⟨?_, ?_, ?_, ?_, ?_, ?_⟩
  · rw [← credentialAccepted_iff]
    unfold handleSetUserId
    by_cases h : credentialAccepted s.userId s.password = true
    · rw [if_pos h]
      exact ⟨fun _ => h, fun _ => rfl⟩
    · rw [if_neg h]
      refine ⟨fun hEq => ?_, fun hc => absurd hc h⟩
      have := congrArg (fun r => r.2.authError) hEq
      exact absurd this invalidPasswordMsg_ne_empty
  · rw [← credentialAccepted_iff]
    unfold handleSetUserId
    by_cases h : credentialAccepted s.userId s.password = true
    · rw [if_pos h]
      refine ⟨fun hEq => ?_, fun hc => absurd h hc⟩
      have := congrArg (fun r => r.2.authError) hEq
      exact absurd this.symm invalidPasswordMsg_ne_empty
    · rw [if_neg h]
      exact ⟨fun _ => h, fun _ => rfl⟩
  · have h : credentialAccepted (lit "ramu") (lit "umar") = true := by decide
    simp [handleSetUserId, h]
  · have h : credentialAccepted (lit "ramu") (lit "ramu") = false := by decide
    simp [handleSetUserId, h]
  · have h : credentialAccepted (lit "") (lit "") = false := by decide
    simp [handleSetUserId, h]
  · have h : credentialAccepted (lit " ramu ") (lit " umar ") = true := by decide
    simp [handleSetUserId, h]

theorem characters_eq_split (s : JSString)
    (h : ∀ c ∈ s, isHighSurrogate c = false) : characters s = split s := by
  induction s with
  | nil => rfl
  | cons c rest ih =>
    have hc : isHighSurrogate c = false := h c (List.mem_cons_self c rest)
    have hrest : ∀ x ∈ rest, isHighSurrogate x = false :=
      fun x hx => h x (List.mem_cons_of_mem c hx)
    cases rest with
    | nil => rfl
    | cons d r =>
      have e : characters (c :: d :: r) = [c] :: characters (d :: r) := by
        simp [characters, hc]
      rw [e, ih hrest]
      rfl

theorem mem_of_mem_trim (u : JSString) (c : Nat) (h : c ∈ trim u) : c ∈ u := by
  unfold trim trimEnd trimStart at h
  have h1 := List.mem_reverse.mp h
  have h2 := List.dropWhile_subset isWhiteSpace h1
  have h3 := List.mem_reverse.mp h2
  exact List.dropWhile_subset isWhiteSpace h3

theorem characterReversal_eq_reverse (s : JSString)
    (h : ∀ c ∈ s, isHighSurrogate c = false) : characterReversal s = s.reverse := by
  unfold characterReversal
  rw [characters_eq_split s h, join_reverse_split]

/-- C1. The handler compares the trimmed credential with the reversal of the
UTF-16 code units of the trimmed identifier. On identifiers without surrogate
pairs that is the character-reversal, and the gate accepts exactly when both
trimmed fields are non-empty and the trimmed credential is the
character-reversal of the trimmed identifier; the four sample inputs behave as
listed. On the identifier made of the letter a and U+1F600 the handler rejects
the character-reversed credential and accepts only the string whose surrogate
pair is swapped. -/
theorem handleSetUserId_reverses_code_units :
    astralName = lit "a😀" ∧
    astralNameReversed = lit "😀a" ∧
    trim astralName ≠ [] ∧
    trim astralNameReversed ≠ [] ∧
    trim astralNameReversed = characterReversal (trim astralName) ∧
    credentialAccepted astralName astralNameReversed = false ∧
    (∀ (st : Storage) (s : AppState),
      handleSetUserId st { s with userId := astralName, password := astralNameReversed }
        = (st, { s with userId := astralName, password := astralNameReversed,
                        authError := invalidPasswordMsg })) ∧
    credentialAccepted astralName [56832, 55357, 97] = true ∧
    (∀ u p : JSString, credentialAccepted u p = true ↔
      trim u ≠ [] ∧ trim p ≠ [] ∧ trim p = (trim u).reverse) ∧
    (∀ u p : JSString, (∀ c ∈ u, isHighSurrogate c = false) →
      (credentialAccepted u p = true ↔
        trim u ≠ [] ∧ trim p ≠ [] ∧ trim p = characterReversal (trim u))) ∧
    (∀ (st : Storage) (s : AppState), (∀ c ∈ s.userId, isHighSurrogate c = false) →
      (handleSetUserId st s
          = (some s.userId, { s with authError := lit "", showUserSetup := false })
        ↔ (trim s.userId ≠ [] ∧ trim s.password ≠ [] ∧
            trim s.password = characterReversal (trim s.userId))) ∧
      (handleSetUserId st s = (st, { s with authError := invalidPasswordMsg })
        ↔ ¬ (trim s.userId ≠ [] ∧ trim s.password ≠ [] ∧
            trim s.password = characterReversal (trim s.userId)))) ∧
    characterReversal (lit "ramu") = lit "umar" ∧
    credentialAccepted (lit "ramu") (lit "umar") = true ∧
    credentialAccepted (lit "ramu") (lit "ramu") = false ∧
    credentialAccepted (lit "") (lit "") = false ∧
    credentialAccepted (lit " ramu ") (lit " umar ") = true := by
  have hrej : credentialAccepted astralName astralNameReversed = false := by decide
  refine ⟨by decide, by decide, by decide, by decide, by decide, hrej, ?_, by decide,
    credentialAccepted_iff, ?_, ?_, by decide, by decide, by decide, by decide, by decide⟩
  · intro st s
    simp [handleSetUserId, hrej]
  · intro u p hu
    rw [credentialAccepted_iff,
      characterReversal_eq_reverse (trim u) (fun c hc => hu c (mem_of_mem_trim u c hc))]
  · intro st s hu
    rw [characterReversal_eq_reverse (trim s.userId)
      (fun c hc => hu c (mem_of_mem_trim s.userId c hc))]
    exact ⟨(handleSetUserId_accepts_iff_reversal st s).1,
      (handleSetUserId_accepts_iff_reversal st s).2.1⟩

/-! ## Risk tiers -/

theorem getRiskCategory_num (q : ℚ) :
    getRiskCategory (.num q) =
      if 7/10 < q then lit "High Risk"
      else if 4/10 < q then lit "Medium Risk" else lit "Low Risk" := by
  simp [getRiskCategory, JSNum.gt]

theorem recommendations_num (q : ℚ) :
    recommendations (.num q) =
      if 7/10 < q then highRiskBundle
      else if 4/10 < q then mediumRiskBundle else lowRiskBundle := by
  unfold recommendations
  by_cases h7 : 7/10 < q
  · have h4 : (4/10 : ℚ) < q := by linarith
    have n7 : ¬ q ≤ 7/10 := by linarith
    have n4 : ¬ q ≤ 4/10 := by linarith
    simp [JSNum.gt, JSNum.le, h7, h4, n7, n4]
  · have l7 : q ≤ 7/10 := by linarith
    by_cases h4 : 4/10 < q
    · have n4 : ¬ q ≤ 4/10 := by linarith
      simp [JSNum.gt, JSNum.le, h7, h4, l7, n4]
    · have l4 : q ≤ 4/10 := by linarith
      simp [JSNum.gt, JSNum.le, h7, h4, l7, l4]

theorem category_labels_distinct :
    lit "High Risk" ≠ lit "Medium Risk" ∧ lit "High Risk" ≠ lit "Low Risk" ∧
    lit "Medium Risk" ≠ lit "Low Risk" := by decide

theorem bundles_distinct :
    highRiskBundle ≠ mediumRiskBundle ∧ highRiskBundle ≠ lowRiskBundle ∧
    mediumRiskBundle ≠ lowRiskBundle := by decide

/-- C2. For every finite risk level `q` (in particular every `q` in `[0,1]`),
`getRiskCategory` answers High Risk exactly when `q > 0.7`, Medium Risk exactly
when `0.4 < q <= 0.7`, and Low Risk exactly when `q <= 0.4`; the three labels
are pairwise different, so exactly one tier holds; `0.4` is low and `0.7` is
medium. -/
theorem getRiskCategory_thresholds (q : ℚ) :
    (getRiskCategory (.num q) = lit "High Risk" ↔ 7/10 < q) ∧
    (getRiskCategory (.num q) = lit "Medium Risk" ↔ 4/10 < q ∧ q ≤ 7/10) ∧
    (getRiskCategory (.num q) = lit "Low Risk" ↔ q ≤ 4/10) ∧
    (lit "High Risk" ≠ lit "Medium Risk" ∧ lit "High Risk" ≠ lit "Low Risk" ∧
      lit "Medium Risk" ≠ lit "Low Risk") ∧
    getRiskCategory (.num (4/10)) = lit "Low Risk" ∧
    getRiskCategory (.num (7/10)) = lit "Medium Risk" := by
  obtain ⟨hHM, hHL, hML⟩ := category_labels_distinct
  refine ⟨?_, ?_, ?_, category_labels_distinct, ?_, ?_⟩
  · rw [getRiskCategory_num]
    by_cases h7 : 7/10 < q
    · rw [if_pos h7]; exact ⟨fun _ => h7, fun _ => rfl⟩
    · rw [if_neg h7]
      by_cases h4 : 4/10 < q
      · rw [if_pos h4]; exact ⟨fun h => absurd h.symm hHM, fun h => absurd h h7⟩
      · rw [if_neg h4]; exact ⟨fun h => absurd h.symm hHL, fun h => absurd h h7⟩
  · rw [getRiskCategory_num]
    by_cases h7 : 7/10 < q
    · rw [if_pos h7]
      exact ⟨fun h => absurd h hHM, fun h => absurd h7 (not_lt.mpr h.2)⟩
    · rw [if_neg h7]
      by_cases h4 : 4/10 < q
      · rw [if_pos h4]; exact ⟨fun _ => ⟨h4, not_lt.mp h7⟩, fun _ => rfl⟩
      · rw [if_neg h4]; exact ⟨fun h => absurd h.symm hML, fun h => absurd h.1 h4⟩
  · rw [getRiskCategory_num]
    by_cases h7 : 7/10 < q
    · rw [if_pos h7]
      refine ⟨fun h => absurd h hHL, fun h => ?_⟩
      have : (7/10 : ℚ) < 4/10 := lt_of_lt_of_le h7 h
      norm_num at this
    · rw [if_neg h7]
      by_cases h4 : 4/10 < q
      · rw [if_pos h4]; exact ⟨fun h => absurd h hML, fun h => absurd h4 (not_lt.mpr h)⟩
      · rw [if_neg h4]; exact ⟨fun _ => not_lt.mp h4, fun _ => rfl⟩
  · rw [getRiskCategory_num]; norm_num
  · rw [getRiskCategory_num]; norm_num

/-- C3. On every risk level, `NaN` and the infinities included, the detection
view's inline severity and its badge class, `getRiskCategory` and `getRiskColor`
name the same tier: Severe / red / High Risk exactly when the level exceeds
0.7, Moderate / yellow / Medium Risk exactly when it exceeds 0.4 but not 0.7,
Mild / green / Low Risk otherwise. -/
theorem risk_thresholding_agrees (r : JSNum) :
    ∃ t : Tier,
      severityTier (diseaseRiskSeverity r) = some t ∧
      badgeTier (diseaseRiskBadge r) = some t ∧
      categoryTier (getRiskCategory r) = some t ∧
      colorTier (getRiskColor r) = some t ∧
      (t = .high ↔ r.gt (7/10) = true) ∧
      (t = .medium ↔ r.gt (7/10) = false ∧ r.gt (4/10) = true) ∧
      (t = .low ↔ r.gt (7/10) = false ∧ r.gt (4/10) = false) := by
  have e1 : severityTier (lit "Severe") = some .high := by decide
  have e2 : severityTier (lit "Moderate") = some .medium := by decide
  have e3 : severityTier (lit "Mild") = some .low := by decide
  have b1 : badgeTier (getSeverityColor (some (lit "Severe"))) = some .high := by decide
  have b2 : badgeTier (getSeverityColor (some (lit "Moderate"))) = some .medium := by decide
  have b3 : badgeTier (getSeverityColor (some (lit "Mild"))) = some .low := by decide
  have c1 : categoryTier (lit "High Risk") = some .high := by decide
  have c2 : categoryTier (lit "Medium Risk") = some .medium := by decide
  have c3 : categoryTier (lit "Low Risk") = some .low := by decide
  have k1 : colorTier (lit "text-red-600 bg-red-100") = some .high := by decide
  have k2 : colorTier (lit "text-yellow-600 bg-yellow-100") = some .medium := by decide
  have k3 : colorTier (lit "text-green-600 bg-green-100") = some .low := by decide
  unfold diseaseRiskBadge diseaseRiskSeverity getRiskCategory getRiskColor
  cases h7 : r.gt (7/10)
  · cases h4 : r.gt (4/10)
    · exact ⟨.low, by simp [e3], by simp [b3], by simp [c3], by simp [k3], by simp, by simp, by simp⟩
    · exact ⟨.medium, by simp [e2], by simp [b2], by simp [c2], by simp [k2], by simp, by simp, by simp⟩
  · exact ⟨.high, by simp [e1], by simp [b1], by simp [c1], by simp [k1], by simp, by simp, by simp⟩

/-- C7. For every finite risk level `q` (in particular every `q` in `[0,1]`),
the Recommendations block shows exactly the bundle of the tier that
`getRiskCategory` reports and nothing else: the high-risk bundle exactly when
`q > 0.7`, the medium-risk bundle exactly when `0.4 < q <= 0.7`, the low-risk
bundle exactly when `q <= 0.4`. At `0.75` the category is High Risk and the
bundle is the high-risk one. Each bundle is the three items of its fragment in
the source, so three items are shown at every level. -/
theorem recommendations_match_category (q : ℚ) :
    (∃ t : Tier, categoryTier (getRiskCategory (.num q)) = some t ∧
      recommendations (.num q) = bundleOf t) ∧
    (recommendations (.num q) = highRiskBundle ↔ 7/10 < q) ∧
    (recommendations (.num q) = mediumRiskBundle ↔ 4/10 < q ∧ q ≤ 7/10) ∧
    (recommendations (.num q) = lowRiskBundle ↔ q ≤ 4/10) ∧
    getRiskCategory (.num (3/4)) = lit "High Risk" ∧
    recommendations (.num (3/4)) = highRiskBundle ∧
    highRiskBundle =
      [lit "Consider preventive spraying immediately",
       lit "Monitor plants closely for early symptoms",
       lit "Implement strict plant hygiene measures"] ∧
    mediumRiskBundle =
      [lit "Maintain good air circulation",
       lit "Monitor weather conditions closely",
       lit "Apply preventive treatments when needed"] ∧
    lowRiskBundle =
      [lit "Maintain normal care practices",
       lit "Continue regular monitoring",
       lit "Update conditions if weather changes"] ∧
    (recommendations (.num q)).length = 3 ∧
    recommendations (.num (1/2)) =
      [lit "Maintain good air circulation",
       lit "Monitor weather conditions closely",
       lit "Apply preventive treatments when needed"] ∧
    recommendations (.num (1/5)) =
      [lit "Maintain normal care practices",
       lit "Continue regular monitoring",
       lit "Update conditions if weather changes"] := by
  obtain ⟨hHM, hHL, hML⟩ := bundles_distinct
  have c1 : categoryTier (lit "High Risk") = some .high := by decide
  have c2 : categoryTier (lit "Medium Risk") = some .medium := by decide
  have c3 : categoryTier (lit "Low Risk") = some .low := by decide
  refine ⟨?_, ?_, ?_, ?_, ?_, ?_, rfl, rfl, rfl, ?_, ?_, ?_⟩
  · rw [getRiskCategory_num, recommendations_num]
    by_cases h7 : 7/10 < q
    · exact ⟨.high, by rw [if_pos h7]; exact c1, by rw [if_pos h7]; rfl⟩
    · by_cases h4 : 4/10 < q
      · exact ⟨.medium, by rw [if_neg h7, if_pos h4]; exact c2,
          by rw [if_neg h7, if_pos h4]; rfl⟩
      · exact ⟨.low, by rw [if_neg h7, if_neg h4]; exact c3,
          by rw [if_neg h7, if_neg h4]; rfl⟩
  · rw [recommendations_num]
    by_cases h7 : 7/10 < q
    · rw [if_pos h7]; exact ⟨fun _ => h7, fun _ => rfl⟩
    · rw [if_neg h7]
      by_cases h4 : 4/10 < q
      · rw [if_pos h4]; exact ⟨fun h => absurd h.symm hHM, fun h => absurd h h7⟩
      · rw [if_neg h4]; exact ⟨fun h => absurd h.symm hHL, fun h => absurd h h7⟩
  · rw [recommendations_num]
    by_cases h7 : 7/10 < q
    · rw [if_pos h7]
      exact ⟨fun h => absurd h hHM, fun h => absurd h7 (not_lt.mpr h.2)⟩
    · rw [if_neg h7]
      by_cases h4 : 4/10 < q
      · rw [if_pos h4]; exact ⟨fun _ => ⟨h4, not_lt.mp h7⟩, fun _ => rfl⟩
      · rw [if_neg h4]; exact ⟨fun h => absurd h.symm hML, fun h => absurd h.1 h4⟩
  · rw [recommendations_num]
    by_cases h7 : 7/10 < q
    · rw [if_pos h7]
      refine ⟨fun h => absurd h hHL, fun h => ?_⟩
      have : (7/10 : ℚ) < 4/10 := lt_of_lt_of_le h7 h
      norm_num at this
    · rw [if_neg h7]
      by_cases h4 : 4/10 < q
      · rw [if_pos h4]; exact ⟨fun h => absurd h hML, fun h => absurd h4 (not_lt.mpr h)⟩
      · rw [if_neg h4]; exact ⟨fun _ => not_lt.mp h4, fun _ => rfl⟩
  · rw [getRiskCategory_num]; norm_num
  · rw [recommendations_num]; norm_num
  · rw [recommendations_num]
    by_cases h7 : 7/10 < q
    · rw [if_pos h7]; rfl
    · rw [if_neg h7]
      by_cases h4 : 4/10 < q
      · rw [if_pos h4]; rfl
      · rw [if_neg h4]; rfl
  · rw [recommendations_num]; norm_num; rfl
  · rw [recommendations_num]; norm_num; rfl

/-! ## Severity colours -/

/-- C8. At the severities `"constructor"` and `"toString"` the lookup
`colors[severity]` finds the member inherited from `Object.prototype`, which is
truthy, so `getSeverityColor` returns that member and not the gray class. The
three documented severities, the empty string, a missing value, and every string
that is not a key of `Object.prototype` get the documented class. -/
theorem getSeverityColor_inherited_key :
    getSeverityColor (some (lit "constructor")) = .inherited (lit "constructor") ∧
    getSeverityColor (some (lit "constructor")) ≠ .str (lit "bg-gray-100 text-gray-800") ∧
    getSeverityColor (some (lit "toString")) = .inherited (lit "toString") ∧
    getSeverityColor (some (lit "toString")) ≠ .str (lit "bg-gray-100 text-gray-800") ∧
    getSeverityColor (some (lit "Severe")) = .str (lit "bg-red-100 text-red-800") ∧
    getSeverityColor (some (lit "Moderate")) = .str (lit "bg-yellow-100 text-yellow-800") ∧
    getSeverityColor (some (lit "Mild")) = .str (lit "bg-green-100 text-green-800") ∧
    getSeverityColor (some (lit "")) = .str (lit "bg-gray-100 text-gray-800") ∧
    getSeverityColor none = .str (lit "bg-gray-100 text-gray-800") ∧
    (∀ k : JSString, k ≠ lit "Severe" → k ≠ lit "Moderate" → k ≠ lit "Mild" →
      k ∉ objectPrototypeKeys →
      getSeverityColor (some k) = .str (lit "bg-gray-100 text-gray-800")) := by
  refine ⟨by decide, by decide, by decide, by decide, by decide, by decide, by decide,
    by decide, by decide, ?_⟩
  intro k h1 h2 h3 hk
  have hl : severityColors.lookup k = none := by
    simp only [severityColors, List.lookup]
    have n1 : (k == lit "Severe") = false := by simpa using h1
    have n2 : (k == lit "Moderate") = false := by simpa using h2
    have n3 : (k == lit "Mild") = false := by simpa using h3
    rw [n1, n2, n3]
  simp [getSeverityColor, toPropertyKey, getProp, hl, hk, JSVal.truthy]

/-! ## Detection pipeline -/

/-- C4. With no image staged, `handleDetect` sets the error
`'Please select an image'`, posts no request, and leaves `loading`, `result`
and every other field as they were; neither the outstanding requests nor the
log of posted requests of the pipeline change. -/
theorem handleDetect_missing_image (st : Storage) (s : DetectorState)
    (h : s.image = none) :
    handleDetect st s = ({ s with error := some (lit "Please select an image") }, none) ∧
    (handleDetect st s).2 = none ∧
    (handleDetect st s).1.loading = s.loading ∧
    (handleDetect st s).1.result = s.result ∧
    (∀ p : Pipeline, p.ui = s →
      (p.step false st .detect).sent = p.sent ∧
      (p.step false st .detect).inFlight = p.inFlight) := by
  have e : handleDetect st s
      = ({ s with error := some (lit "Please select an image") }, none) := by
    unfold handleDetect; rw [h]
  refine ⟨e, by rw [e], by rw [e], by rw [e], ?_⟩
  intro p hp
  subst hp
  simp [Pipeline.step, e]

theorem handleDetect_missing_image_witness :
    handleDetect none DetectorState.init
        = ({ DetectorState.init with error := some (lit "Please select an image") }, none) ∧
      (handleDetect none DetectorState.init).2 = none :=
  ⟨(handleDetect_missing_image none DetectorState.init rfl).1,
   (handleDetect_missing_image none DetectorState.init rfl).2.1⟩

theorem buttonInv_loading (p : Pipeline) (h : ButtonInv p) (i : Nat)
    (hlt : i < p.inFlight.length) : p.ui.loading = true ∧ p.inFlight.length = 1 := by
  unfold ButtonInv at h
  by_cases hl : p.ui.loading = true
  · rw [if_pos hl] at h; exact ⟨hl, h⟩
  · rw [if_neg hl] at h
    rw [h] at hlt; exact absurd hlt (Nat.not_lt_zero i)

theorem buttonInv_step (st : Storage) (p : Pipeline) (e : DetEvent)
    (h : ButtonInv p) : ButtonInv (p.step true st e) := by
  cases e with
  | drop acceptedFiles =>
    unfold ButtonInv at h ⊢
    cases hf : acceptedFiles.head? <;> simp only [Pipeline.step, onDrop, hf] <;> exact h
  | readerLoad i =>
    unfold ButtonInv at h ⊢
    cases hr : p.readers[i]? <;> simp only [Pipeline.step, readerOnload, hr] <;> exact h
  | changeLocation v =>
    unfold ButtonInv at h ⊢
    simp only [Pipeline.step, onChangeLocation]; exact h
  | detect =>
    by_cases hd : (true && detectDisabled p.ui) = true
    · have e : p.step true st .detect = p := by simp only [Pipeline.step, if_pos hd]
      rw [e]; exact h
    · have e : p.step true st .detect =
          { p with ui := (handleDetect st p.ui).1
                   inFlight := p.inFlight ++ (handleDetect st p.ui).2.toList
                   sent := p.sent ++ (handleDetect st p.ui).2.toList } := by
        simp only [Pipeline.step, if_neg hd]
      rw [e]
      simp only [detectDisabled, Bool.true_and, Bool.or_eq_true, not_or,
        Bool.not_eq_true, Option.isNone_eq_false_iff, Option.isSome_iff_exists] at hd
      obtain ⟨⟨image, hi⟩, hl⟩ := hd
      unfold ButtonInv at h ⊢
      rw [hl] at h
      simp only [Bool.false_eq_true, if_false] at h
      simp [handleDetect, hi, h]
  | fulfil i data =>
    by_cases hlt : i < p.inFlight.length
    · obtain ⟨_, hone⟩ := buttonInv_loading p h i hlt
      have e : p.step true st (.fulfil i data) =
          { p with ui := handleDetectFulfilled data p.ui
                   inFlight := p.inFlight.eraseIdx i } := by
        simp only [Pipeline.step, if_pos hlt]
      rw [e]
      unfold ButtonInv
      simp [handleDetectFulfilled, List.length_eraseIdx_of_lt hlt, hone]
    · have e : p.step true st (.fulfil i data) = p := by
        simp only [Pipeline.step, if_neg hlt]
      rw [e]; exact h
  | reject i msg =>
    by_cases hlt : i < p.inFlight.length
    · obtain ⟨_, hone⟩ := buttonInv_loading p h i hlt
      have e : p.step true st (.reject i msg) =
          { p with ui := handleDetectRejected msg p.ui
                   inFlight := p.inFlight.eraseIdx i } := by
        simp only [Pipeline.step, if_pos hlt]
      rw [e]
      unfold ButtonInv
      simp [handleDetectRejected, List.length_eraseIdx_of_lt hlt, hone]
    · have e : p.step true st (.reject i msg) = p := by
        simp only [Pipeline.step, if_neg hlt]
      rw [e]; exact h

theorem buttonInv_run (st : Storage) (evs : List DetEvent) (p : Pipeline)
    (h : ButtonInv p) : ButtonInv (Pipeline.run true st p evs) := by
  induction evs generalizing p with
  | nil => exact h
  | cons e es ih => exact ih _ (buttonInv_step st p e h)

/-- C5, as stated, fails: `handleDetect` does not look at `loading`. Called on
a detector with an image staged and `loading` already true it posts a request,
and two calls in a row after one drop leave two requests outstanding. -/
theorem handleDetect_while_loading_posts :
    busyDetector.loading = true ∧
    (handleDetect none busyDetector).2
      = some { image := sampleLeaf, location := lit "", user_id := anonymous } ∧
    (Pipeline.run false none Pipeline.init
      [.drop [sampleLeaf], .detect, .detect]).inFlight.length = 2 := by
  refine ⟨rfl, rfl, rfl⟩

/-- C5, amended. The Detect button is disabled while `loading` is true or no
image is staged. For one mounted detector whose `handleDetect` is invoked only
through that button, after every sequence of drops, reads, location edits,
clicks and responses at most one detection request is outstanding, and a click
while one is outstanding posts nothing. -/
theorem button_at_most_one_in_flight (st : Storage) (evs : List DetEvent) :
    (Pipeline.run true st Pipeline.init evs).inFlight.length ≤ 1 ∧
    ((Pipeline.run true st Pipeline.init evs).ui.loading = true →
      ((Pipeline.run true st Pipeline.init evs).step true st .detect).sent
        = (Pipeline.run true st Pipeline.init evs).sent) := by
  have h := buttonInv_run st evs Pipeline.init (by simp [ButtonInv, Pipeline.init, DetectorState.init])
  unfold ButtonInv at h
  constructor
  · rw [h]; split <;> simp
  · intro hl
    simp [Pipeline.step, detectDisabled, hl]

/-- C9. A request posted by `handleDetect` carries the staged image, the
location text as entered (the empty string included), and as `user_id` the
stored identifier when one is stored and non-empty, which is when `App` starts
gated-in, and `'anonymous'` otherwise. -/
theorem handleDetect_payload (st : Storage) (s : DetectorState) (req : DetectRequest)
    (h : (handleDetect st s).2 = some req) :
    s.image = some req.image ∧
    req.location = s.location ∧
    (∀ id : JSString, st = some id → id ≠ [] → req.user_id = id) ∧
    (st = none ∨ st = some [] → req.user_id = lit "anonymous") ∧
    ((AppState.init st).showUserSetup = false → st = some req.user_id) ∧
    ((AppState.init st).showUserSetup = true → req.user_id = lit "anonymous") := by
  unfold handleDetect at h
  cases hi : s.image with
  | none => rw [hi] at h; simp at h
  | some image =>
    rw [hi] at h
    simp only [Option.some.injEq] at h
    subst h
    refine ⟨rfl, rfl, ?_, ?_, ?_, ?_⟩
    · intro id hst hne
      subst hst
      simp [getItemOr, truthy_iff, hne]
    · rintro (hst | hst) <;> subst hst <;> rfl
    · intro hgate
      cases st with
      | none => simp [AppState.init, getItemOr, truthy, lit] at hgate
      | some id =>
        cases id with
        | nil => simp [AppState.init, getItemOr, truthy, lit] at hgate
        | cons c r => simp [getItemOr, truthy]
    · intro hgate
      cases st with
      | none => rfl
      | some id =>
        cases id with
        | nil => rfl
        | cons c r => simp [AppState.init, getItemOr, truthy] at hgate

theorem handleDetect_payload_witness :
    (handleDetect (some (lit "ramu")) stagedDetector).2
        = some { image := sampleLeaf, location := lit "", user_id := lit "ramu" } ∧
      stagedDetector.image = some sampleLeaf :=
  ⟨rfl, (handleDetect_payload (some (lit "ramu")) stagedDetector
      { image := sampleLeaf, location := lit "", user_id := lit "ramu" } rfl).1⟩

/-! ## Logout -/

theorem step_keeps_logged_out (w : World) (e : Event) (hs : w.storage = none)
    (hq : noAcceptedSubmit w [e] = true) :
    (w.step e).storage = none ∧
    ∃ new : List DetectRequest, (w.step e).pipe.sent = w.pipe.sent ++ new ∧
      ∀ req ∈ new, req.user_id = anonymous := by
  cases e with
  | changeUserId v => exact ⟨hs, [], by simp [World.step], by simp⟩
  | changePassword v => exact ⟨hs, [], by simp [World.step], by simp⟩
  | submit =>
    have hr : credentialAccepted w.app.userId w.app.password = false := by
      simpa [noAcceptedSubmit] using hq
    refine ⟨?_, [], ?_, by simp⟩
    · simp [World.step, handleSetUserId, hr, hs]
    · simp [World.step]
  | logout => exact ⟨rfl, [], by simp [World.step], by simp⟩
  | selectTab tab => exact ⟨hs, [], by simp [World.step], by simp⟩
  | det d =>
    refine ⟨hs, ?_⟩
    cases d with
    | drop acceptedFiles => exact ⟨[], by simp [World.step, Pipeline.step], by simp⟩
    | readerLoad i =>
      refine ⟨[], ?_, by simp⟩
      cases hr : w.pipe.readers[i]? <;> simp [World.step, Pipeline.step, hr]
    | changeLocation v => exact ⟨[], by simp [World.step, Pipeline.step], by simp⟩
    | detect =>
      refine ⟨(handleDetect w.storage w.pipe.ui).2.toList, by simp [World.step, Pipeline.step], ?_⟩
      intro req hreq
      rw [hs] at hreq
      unfold handleDetect at hreq
      cases hi : w.pipe.ui.image with
      | none => rw [hi] at hreq; simp at hreq
      | some image =>
        rw [hi] at hreq
        simp only [Option.toList, List.mem_singleton] at hreq
        rw [hreq]; rfl
    | fulfil i data =>
      refine ⟨[], ?_, by simp⟩
      by_cases hlt : i < w.pipe.inFlight.length <;> simp [World.step, Pipeline.step, hlt]
    | reject i msg =>
      refine ⟨[], ?_, by simp⟩
      by_cases hlt : i < w.pipe.inFlight.length <;> simp [World.step, Pipeline.step, hlt]

theorem run_keeps_logged_out (evs : List Event) (w : World) (hs : w.storage = none)
    (hq : noAcceptedSubmit w evs = true) :
    (w.run evs).storage = none ∧
    ∃ new : List DetectRequest, (w.run evs).pipe.sent = w.pipe.sent ++ new ∧
      ∀ req ∈ new, req.user_id = anonymous := by
  induction evs generalizing w with
  | nil => exact ⟨hs, [], by simp [World.run], by simp⟩
  | cons e es ih =>
    have hq1 : noAcceptedSubmit w [e] = true := by
      simp only [noAcceptedSubmit, Bool.and_eq_true] at hq ⊢
      exact ⟨hq.1, trivial⟩
    have hq2 : noAcceptedSubmit (w.step e) es = true := by
      simp only [noAcceptedSubmit, Bool.and_eq_true] at hq
      exact hq.2
    obtain ⟨hs1, new1, hsent1, hall1⟩ := step_keeps_logged_out w e hs hq1
    obtain ⟨hs2, new2, hsent2, hall2⟩ := ih (w.step e) hs1 hq2
    refine ⟨hs2, new1 ++ new2, ?_, ?_⟩
    · show ((w.step e).run es).pipe.sent = _
      rw [hsent2, hsent1, List.append_assoc]
    · intro req hreq
      rcases List.mem_append.mp hreq with h | h
      · exact hall1 req h
      · exact hall2 req h

/-- C10. Logout removes the stored identifier and shows the credential form
again. From then on, along every sequence of events in which no submit of the
form is accepted, the identifier stays absent and every request that
`handleDetect` posts carries `user_id = 'anonymous'`. This holds from every
state, the gated-in ones included. -/
theorem logout_then_anonymous (w : World) (evs : List Event)
    (h : noAcceptedSubmit (w.step .logout) evs = true) :
    (logout w.storage w.app).1 = none ∧
    (logout w.storage w.app).2.showUserSetup = true ∧
    (w.step .logout).storage = none ∧
    (w.step .logout).app.showUserSetup = true ∧
    ((w.step .logout).run evs).storage = none ∧
    ∃ new : List DetectRequest,
      ((w.step .logout).run evs).pipe.sent = w.pipe.sent ++ new ∧
      ∀ req ∈ new, req.user_id = lit "anonymous" := by
  refine ⟨rfl, rfl, rfl, rfl, ?_⟩
  exact run_keeps_logged_out evs (w.step .logout) rfl h

theorem logout_then_anonymous_witness :
    ramuWorld.app.showUserSetup = false ∧
    noAcceptedSubmit (ramuWorld.step .logout)
      [.submit, .det (.drop [sampleLeaf]), .det .detect] = true ∧
    (((ramuWorld.step .logout).run
      [.submit, .det (.drop [sampleLeaf]), .det .detect]).storage = none ∧
     ∃ new : List DetectRequest,
      ((ramuWorld.step .logout).run
        [.submit, .det (.drop [sampleLeaf]), .det .detect]).pipe.sent
        = ramuWorld.pipe.sent ++ new ∧
      ∀ req ∈ new, req.user_id = lit "anonymous") :=
  ⟨by decide, by decide,
   (logout_then_anonymous ramuWorld
      [.submit, .det (.drop [sampleLeaf]), .det .detect] (by decide)).2.2.2.2⟩

/-! ## Weather risk pipeline -/

/-- C6, as stated, fails: with temperature `"abc"` the handler reports no
validation error and posts one request, whose temperature is `NaN`. -/
theorem handleCalculate_posts_nan :
    parseFloat badTemperatureForm.formData.temperature = .nan ∧
    (handleCalculate badTemperatureForm).1.error = none ∧
    (handleCalculate badTemperatureForm).2.length = 1 ∧
    (handleCalculate badTemperatureForm).2.map (fun r => r.weather_data.temperature)
      = [JSNum.nan] := by
  refine ⟨by decide, rfl, rfl, by decide⟩

/-- C6, amended. `handleCalculate` validates nothing: for every form it sets
`loading`, clears the error, and posts exactly one request, whose temperature,
humidity and rainfall are `parseFloat` of the field texts, so a field that does
not parse is sent as `NaN`. -/
theorem handleCalculate_always_posts (s : RiskState) :
    (handleCalculate s).1 = { s with loading := true, error := none } ∧
    ∃ req : WeatherRequest,
      (handleCalculate s).2 = [req] ∧
      req.disease_name = s.formData.disease_name ∧
      req.weather_data.temperature = parseFloat s.formData.temperature ∧
      req.weather_data.humidity = parseFloat s.formData.humidity ∧
      req.weather_data.rainfall = parseFloat s.formData.rainfall ∧
      req.weather_data.location = s.formData.location ∧
      (parseFloat s.formData.temperature = .nan → req.weather_data.temperature = .nan) ∧
      (parseFloat s.formData.humidity = .nan → req.weather_data.humidity = .nan) ∧
      (parseFloat s.formData.rainfall = .nan → req.weather_data.rainfall = .nan) := by
  refine ⟨rfl, _, rfl, rfl, rfl, rfl, rfl, rfl, fun h => h, fun h => h, fun h => h⟩

/-! ## Failure of a detection request -/

/-- C11. When `handleDetect` has posted a request and the request fails, the
error shown is the service's message when the error response carries a
non-empty one and `'Error detecting disease'` otherwise, `loading` is false,
and `result` and every other field have the value they had before the
invocation: only `loading` and `error` can differ. The failure continuation
keeps `result` on whatever state it runs. -/
theorem handleDetect_failure_keeps_result (st : Storage) (s : DetectorState)
    (req : DetectRequest) (msg : Option JSString)
    (h : (handleDetect st s).2 = some req) :
    (∀ m : JSString, msg = some m → m ≠ [] →
      (handleDetectRejected msg (handleDetect st s).1).error = some m) ∧
    (msg = none ∨ msg = some [] →
      (handleDetectRejected msg (handleDetect st s).1).error
        = some (lit "Error detecting disease")) ∧
    (handleDetectRejected msg (handleDetect st s).1).result = s.result ∧
    (handleDetectRejected msg (handleDetect st s).1).loading = false ∧
    handleDetectRejected msg (handleDetect st s).1
      = { s with loading := false
                 error := (handleDetectRejected msg (handleDetect st s).1).error } ∧
    (∀ t : DetectorState, (handleDetectRejected msg t).result = t.result ∧
      (handleDetectRejected msg t).loading = false) := by
  have e : (handleDetect st s).1 = { s with loading := true, error := none } := by
    unfold handleDetect at h ⊢
    cases hi : s.image with
    | none => rw [hi] at h; simp at h
    | some image => rfl
  rw [e]
  refine ⟨?_, ?_, rfl, rfl, rfl, fun t => ⟨rfl, rfl⟩⟩
  · intro m hm hne
    subst hm
    simp [handleDetectRejected, truthy_iff, hne]
  · rintro (hm | hm) <;> subst hm <;> rfl

theorem handleDetect_failure_keeps_result_witness :
    (handleDetectRejected none (handleDetect none stagedDetector).1).result
        = stagedDetector.result ∧
      (handleDetectRejected none (handleDetect none stagedDetector).1).loading = false :=
  ⟨(handleDetect_failure_keeps_result none stagedDetector
      { image := sampleLeaf, location := lit "", user_id := anonymous } none rfl).2.2.1,
   (handleDetect_failure_keeps_result none stagedDetector
      { image := sampleLeaf, location := lit "", user_id := anonymous } none rfl).2.2.2.1⟩

/-! ## Effects of the submit handler -/

/-- C13. When the gate accepts the two fields, the identifier as entered is
stored as the session identifier, the error message is empty whatever it was
before, and the credential form is closed. -/
theorem handleSetUserId_accept_effects (st : Storage) (s : AppState)
    (h : credentialAccepted s.userId s.password = true) :
    (handleSetUserId st s).1 = some s.userId ∧
    (handleSetUserId st s).2.authError = lit "" ∧
    (handleSetUserId st s).2.authError = [] ∧
    (handleSetUserId st s).2.showUserSetup = false ∧
    ({ storage := st, app := s, pipe := Pipeline.init } : World).step .submit
      = { storage := some s.userId
          app := { s with authError := lit "", showUserSetup := false }
          pipe := Pipeline.init } := by
  have e : handleSetUserId st s
      = (some s.userId, { s with authError := lit "", showUserSetup := false }) := by
    unfold handleSetUserId; rw [if_pos h]
  refine ⟨by rw [e], by rw [e], by rw [e]; rfl, by rw [e], ?_⟩
  simp only [World.step, e]

theorem handleSetUserId_accept_effects_witness :
    retryForm.authError ≠ lit "" ∧
    (handleSetUserId none retryForm).1 = some (lit "ramu") ∧
    (handleSetUserId none retryForm).2.authError = lit "" ∧
    (handleSetUserId none retryForm).2.showUserSetup = false :=
  ⟨by decide,
   (handleSetUserId_accept_effects none retryForm (by decide)).1,
   (handleSetUserId_accept_effects none retryForm (by decide)).2.1,
   (handleSetUserId_accept_effects none retryForm (by decide)).2.2.2.1⟩

/-- C14. When the gate rejects the two fields, the error message is the one
fixed string of line 26, the same for every rejected input; storage is not
written; the identifier and credential fields keep their values; and
`showUserSetup` keeps its value, so the credential form stays open. -/
theorem handleSetUserId_reject_effects (st : Storage) (s : AppState)
    (h : credentialAccepted s.userId s.password = false) :
    (handleSetUserId st s).2.authError = invalidPasswordMsg ∧
    (∀ (st2 : Storage) (s2 : AppState), credentialAccepted s2.userId s2.password = false →
      (handleSetUserId st2 s2).2.authError = (handleSetUserId st s).2.authError) ∧
    (handleSetUserId st s).1 = st ∧
    (handleSetUserId st s).2.userId = s.userId ∧
    (handleSetUserId st s).2.password = s.password ∧
    (handleSetUserId st s).2.showUserSetup = s.showUserSetup ∧
    (s.showUserSetup = true → (handleSetUserId st s).2.showUserSetup = true) ∧
    handleSetUserId st s = (st, { s with authError := invalidPasswordMsg }) := by
  have rej : ∀ (st2 : Storage) (s2 : AppState),
      credentialAccepted s2.userId s2.password = false →
      handleSetUserId st2 s2 = (st2, { s2 with authError := invalidPasswordMsg }) := by
    intro st2 s2 h2
    unfold handleSetUserId
    rw [if_neg (by rw [h2]; exact Bool.false_ne_true)]
  have e := rej st s h
  refine ⟨by rw [e], ?_, by rw [e], by rw [e], by rw [e], by rw [e], ?_, e⟩
  · intro st2 s2 h2
    rw [e, rej st2 s2 h2]
  · intro hs
    rw [e]; exact hs

theorem handleSetUserId_reject_effects_witness :
    wrongForm.showUserSetup = true ∧
    (handleSetUserId none wrongForm).2.authError = invalidPasswordMsg ∧
    (handleSetUserId none wrongForm).1 = none ∧
    (handleSetUserId none wrongForm).2.userId = lit "ramu" :=
  ⟨by decide,
   (handleSetUserId_reject_effects none wrongForm (by decide)).1,
   (handleSetUserId_reject_effects none wrongForm (by decide)).2.2.1,
   (handleSetUserId_reject_effects none wrongForm (by decide)).2.2.2.1⟩

/-- C16. The submit handler stores the identifier as entered, not the trimmed
identifier it compared. For the accepted fields `" ramu "` and `" umar "` the
stored identifier is `" ramu "`, which differs from its trimmed form `"ramu"`,
and a request `handleDetect` posts afterwards carries `" ramu "` as `user_id`.
In general every accepted identifier is stored and later sent unchanged. -/
theorem stored_identifier_untrimmed :
    credentialAccepted paddedForm.userId paddedForm.password = true ∧
    (handleSetUserId none paddedForm).1 = some (lit " ramu ") ∧
    trim (lit " ramu ") = lit "ramu" ∧
    (handleSetUserId none paddedForm).1 ≠ some (trim paddedForm.userId) ∧
    (handleDetect (handleSetUserId none paddedForm).1 stagedDetector).2
      = some { image := sampleLeaf, location := lit "", user_id := lit " ramu " } ∧
    (∀ (st : Storage) (s : AppState) (d : DetectorState) (req : DetectRequest),
      credentialAccepted s.userId s.password = true →
      (handleDetect (handleSetUserId st s).1 d).2 = some req →
      (handleSetUserId st s).1 = some s.userId ∧ req.user_id = s.userId) := by
  refine ⟨by decide, by decide, by decide, by decide, by decide, ?_⟩
  intro st s d req hacc hreq
  have e : handleSetUserId st s
      = (some s.userId, { s with authError := lit "", showUserSetup := false }) := by
    unfold handleSetUserId; rw [if_pos hacc]
  rw [e] at hreq ⊢
  refine ⟨rfl, ?_⟩
  have hne : s.userId ≠ [] := by
    intro hnil
    have := (credentialAccepted_iff s.userId s.password).mp hacc
    rw [hnil] at this
    exact this.1 rfl
  unfold handleDetect at hreq
  cases hi : d.image with
  | none => rw [hi] at hreq; simp at hreq
  | some image =>
    rw [hi] at hreq
    simp only [Option.some.injEq] at hreq
    subst hreq
    simp [getItemOr, truthy_iff, hne]

/-! ## Image acquisition -/

/-- C12, as stated, fails. Right after a file is accepted the Detect button is
enabled and a click posts that file while the preview is still absent; and
when a second file is accepted after the first was read, a click posts the
second file while the preview is still the one of the first. -/
theorem detect_runs_before_preview :
    (Pipeline.run true none Pipeline.init [.drop [sampleLeaf]]).ui.image
      = some sampleLeaf ∧
    (Pipeline.run true none Pipeline.init [.drop [sampleLeaf]]).ui.preview = none ∧
    detectDisabled (Pipeline.run true none Pipeline.init [.drop [sampleLeaf]]).ui
      = false ∧
    (Pipeline.run true none Pipeline.init [.drop [sampleLeaf], .detect]).sent
      = [{ image := sampleLeaf, location := lit "", user_id := anonymous }] ∧
    (Pipeline.run true none Pipeline.init
      [.drop [sampleLeaf], .readerLoad 0, .drop [otherLeaf]]).ui.image
      = some otherLeaf ∧
    (Pipeline.run true none Pipeline.init
      [.drop [sampleLeaf], .readerLoad 0, .drop [otherLeaf]]).ui.preview
      = some (readAsDataURL sampleLeaf) ∧
    readAsDataURL sampleLeaf ≠ readAsDataURL otherLeaf ∧
    (Pipeline.run true none Pipeline.init
      [.drop [sampleLeaf], .readerLoad 0, .drop [otherLeaf], .detect]).sent
      = [{ image := otherLeaf, location := lit "", user_id := anonymous }] := by
  refine ⟨by decide, by decide, by decide, by decide, by decide, by decide, by decide,
    by decide⟩

/-- C12, amended. Accepting a file stages it at once and leaves the preview as
it was; when the read of that file completes, the preview is the one of the
staged file. `handleDetect` reads only the staged file, never the preview: the
request it posts carries the staged file and is the same whatever the preview
is. Accepting no file changes nothing. -/
theorem accept_stages_then_preview (viaButton : Bool) (st : Storage) (p : Pipeline)
    (f : File) (fs : List File) :
    (p.step viaButton st (.drop (f :: fs))).ui.image = some f ∧
    (p.step viaButton st (.drop (f :: fs))).ui.preview = p.ui.preview ∧
    ((p.step viaButton st (.drop (f :: fs))).step viaButton st
      (.readerLoad p.readers.length)).ui.image = some f ∧
    ((p.step viaButton st (.drop (f :: fs))).step viaButton st
      (.readerLoad p.readers.length)).ui.preview = some (readAsDataURL f) ∧
    (∀ (d : DetectorState) (req : DetectRequest),
      (handleDetect st d).2 = some req → d.image = some req.image) ∧
    (∀ (d : DetectorState) (pv : Option DataURL),
      (handleDetect st { d with preview := pv }).2 = (handleDetect st d).2) ∧
    (p.step viaButton st (.drop [])).ui = p.ui := by
  have hget : (p.readers ++ [f])[p.readers.length]? = some f := by simp
  refine ⟨rfl, rfl, ?_, ?_, ?_, ?_, rfl⟩
  · simp only [Pipeline.step, onDrop, List.head?_cons, Option.toList, hget, readerOnload]
  · simp only [Pipeline.step, onDrop, List.head?_cons, Option.toList, hget, readerOnload]
  · intro d req h
    unfold handleDetect at h
    cases hi : d.image with
    | none => rw [hi] at h; simp at h
    | some image =>
      rw [hi] at h
      simp only [Option.some.injEq] at h
      subst h; rfl
  · intro d pv
    unfold handleDetect
    cases hi : d.image <;> simp [hi]

/-! ## Alternative predictions -/

theorem mul_hundred_ge (a b : JSNum) (h : a.ge b = true) :
    (a.mul 100).ge (b.mul 100) = true := by
  cases a with
  | nan => simp [JSNum.ge] at h
  | num x =>
    cases b with
    | nan => simp [JSNum.ge] at h
    | num y =>
      simp only [JSNum.ge, decide_eq_true_eq] at h
      simp only [JSNum.mul, JSNum.ge, decide_eq_true_eq]
      linarith
    | inf nb =>
      simp only [JSNum.ge] at h
      subst h
      simp [JSNum.mul, JSNum.ge]
  | inf na =>
    cases b with
    | nan => simp [JSNum.ge] at h
    | num y =>
      simp only [JSNum.ge, Bool.not_eq_true'] at h
      subst h
      simp [JSNum.mul, JSNum.ge]
    | inf nb =>
      simp only [JSNum.ge] at h
      simp [JSNum.mul, JSNum.ge]
      simpa using h

theorem alternativePredictions_getElem? (result : DetectionResult) (i : Nat) :
    (alternativePredictions result)[i]? =
      (result.top_3_predictions[i]?).map fun pred =>
        ({ rank := i + 1, disease := pred.disease,
           barWidth := pred.confidence.mul 100,
           percent := pred.confidence.mul 100 } : PredictionRow) := by
  simp [alternativePredictions]

/-- C15. The Alternative Predictions list has one row per entry of
`top_3_predictions`; the row at position `i` has rank `i + 1` and shows the
disease and (times 100) the confidence of the input entry at position `i`.
Nothing is filtered or re-sorted, so an input in descending order of
confidence is displayed in descending order. -/
theorem alternativePredictions_in_order (result : DetectionResult) :
    (alternativePredictions result).length = result.top_3_predictions.length ∧
    (∀ i : Nat, (alternativePredictions result)[i]? =
      (result.top_3_predictions[i]?).map fun pred =>
        ({ rank := i + 1, disease := pred.disease,
           barWidth := pred.confidence.mul 100,
           percent := pred.confidence.mul 100 } : PredictionRow)) ∧
    (alternativePredictions result).map (fun row => row.disease)
      = result.top_3_predictions.map (fun pred => pred.disease) ∧
    (alternativePredictions result).map (fun row => row.percent)
      = result.top_3_predictions.map (fun pred => pred.confidence.mul 100) ∧
    (List.Pairwise (fun a b : Prediction => a.confidence.ge b.confidence = true)
        result.top_3_predictions →
      List.Pairwise (fun a b : PredictionRow => a.percent.ge b.percent = true)
        (alternativePredictions result)) ∧
    (alternativePredictions sampleResult).map (fun row => (row.rank, row.disease))
      = [(1, lit "Tomato_Early_blight"), (2, lit "Tomato_Late_blight"),
         (3, lit "Tomato_Leaf_Mold")] := by
  have hd : (alternativePredictions result).map (fun row => row.disease)
      = result.top_3_predictions.map (fun pred => pred.disease) := by
    apply List.ext_getElem?
    intro i
    rw [List.getElem?_map, List.getElem?_map, alternativePredictions_getElem?]
    cases result.top_3_predictions[i]? <;> rfl
  have hp : (alternativePredictions result).map (fun row => row.percent)
      = result.top_3_predictions.map (fun pred => pred.confidence.mul 100) := by
    apply List.ext_getElem?
    intro i
    rw [List.getElem?_map, List.getElem?_map, alternativePredictions_getElem?]
    cases result.top_3_predictions[i]? <;> rfl
  refine ⟨by simp [alternativePredictions], alternativePredictions_getElem? result,
    hd, hp, ?_, ?_⟩
  · intro hsorted
    have h1 : List.Pairwise (fun x y : JSNum => x.ge y = true)
        (result.top_3_predictions.map (fun pred => pred.confidence.mul 100)) := by
      rw [List.pairwise_map]
      exact hsorted.imp (fun {a b} hab => mul_hundred_ge a.confidence b.confidence hab)
    rw [← hp, List.pairwise_map] at h1
    exact h1
  · simp [alternativePredictions, sampleResult]

end AgriClient
